import Mathlib

/-
Verification development for the multi-agent Minecraft coordination runtime
(Plugin/Core): BaseAgent lifecycle and PDA loop, MessageBus, SectorLockManager,
the ExplorerBot rectangle detector, and BuilderBot.decide.  Each definition is a
shallow embedding of the corresponding Python source in
MyAdventures/Plugin/Core; the asyncio event loop is modelled as sequential
execution (one cooperative task runs at a time), awaited calls are inlined, and
log statements are dropped.
-/

-- ============================================================
-- AgentState (BaseAgent.py, class AgentState)
-- ============================================================

inductive AgentState where
  | IDLE
  | RUNNING
  | PAUSED
  | WAITING
  | STOPPED
  | ERROR
deriving DecidableEq, Repr

/-
BaseAgent (BaseAgent.py, class BaseAgent).  Observable lifecycle fields:
state and the stop flag mirror the attributes of the Python object;
activeLoops counts tasks created by start() and still running (the Python
test is that self._task exists and is not done; since start() never
overwrites a live task, in sequential execution this is 0 or 1);
checkpoints counts save_checkpoint() invocations; loopTerminations counts
completed _run_loop tasks; history records every set_state transition,
newest first.
-/
structure BaseAgent where
  state : AgentState
  shouldStop : Bool
  activeLoops : Nat
  checkpoints : Nat
  loopTerminations : Nat
  history : List AgentState
deriving DecidableEq, Repr

def initAgent : BaseAgent :=
  { state := AgentState.IDLE
    shouldStop := false
    activeLoops := 0
    checkpoints := 0
    loopTerminations := 0
    history := [AgentState.IDLE] }

/- BaseAgent.set_state: records the transition (the log line is the history). -/
def BaseAgent.set_state (a : BaseAgent) (s : AgentState) : BaseAgent :=
  { a with state := s, history := s :: a.history }

/- BaseAgent.save_checkpoint: the base hook only logs; we count invocations. -/
def BaseAgent.save_checkpoint (a : BaseAgent) : BaseAgent :=
  { a with checkpoints := a.checkpoints + 1 }

/-
The finally block of BaseAgent._run_loop:
if not self._should_stop: set_state(STOPPED, "loop finished"); save_checkpoint().
-/
def BaseAgent.loopFinally (a : BaseAgent) : BaseAgent :=
  if a.shouldStop then a
  else ((a.set_state AgentState.STOPPED).save_checkpoint)

/- The _run_loop task finishing (for any reason): the asyncio task is done. -/
def BaseAgent.taskFinished (a : BaseAgent) : BaseAgent :=
  { a with activeLoops := 0, loopTerminations := a.loopTerminations + 1 }

/-
One PDA cycle is abstracted by its outcome: it completed normally (without
touching the lifecycle fields), raised an unhandled exception, or was hit by
task cancellation.  The schedule list supplies one outcome per loop turn.
-/
inductive CycleOutcome where
  | ok
  | raises
  | cancelled
deriving DecidableEq, Repr

inductive LoopExit where
  | normal
  | exn
  | cancelledExit
  | outOfSchedule
deriving DecidableEq, Repr

/-
The while-loop of BaseAgent._run_loop: while not should_stop, a paused turn
just sleeps and rechecks, a terminal state breaks, otherwise the cycle runs
perceive/decide/act with the scheduled outcome.  Runs until the schedule is
exhausted (outOfSchedule truncates the model of a still-running loop).
-/
def BaseAgent.loopIter : BaseAgent → List CycleOutcome → BaseAgent × LoopExit
  | a, [] => (a, LoopExit.outOfSchedule)
  | a, c :: rest =>
    if a.shouldStop then (a, LoopExit.normal)
    else if a.state = AgentState.PAUSED then BaseAgent.loopIter a rest
    else if a.state = AgentState.STOPPED ∨ a.state = AgentState.ERROR then (a, LoopExit.normal)
    else
      match c with
      | CycleOutcome.ok => BaseAgent.loopIter a rest
      | CycleOutcome.raises => (a, LoopExit.exn)
      | CycleOutcome.cancelled => (a, LoopExit.cancelledExit)

/-
BaseAgent._run_loop: run the while-loop; on an unhandled exception the except
branch sets ERROR and checkpoints, then the finally block runs; on
CancelledError the loop returns quietly and the finally block runs; in every
completed case the task finishes.
-/
def BaseAgent.run_loop (a : BaseAgent) (sched : List CycleOutcome) : BaseAgent :=
  match a.loopIter sched with
  | (a1, LoopExit.normal) => (a1.loopFinally).taskFinished
  | (a1, LoopExit.exn) =>
      ((((a1.set_state AgentState.ERROR).save_checkpoint)).loopFinally).taskFinished
  | (a1, LoopExit.cancelledExit) => (a1.loopFinally).taskFinished
  | (a1, LoopExit.outOfSchedule) => a1

-- ============================================================
-- Control commands (BaseAgent.start / stop / pause / resume)
-- ============================================================

/-
BaseAgent.start: if self._task and not self._task.done(): log and return.
Otherwise clear the stop flag, set_state(RUNNING, "start"), and create the
loop task.
-/
def BaseAgent.start (a : BaseAgent) : BaseAgent :=
  if a.activeLoops ≠ 0 then a
  else
    let a1 := { a with shouldStop := false }
    let a2 := a1.set_state AgentState.RUNNING
    { a2 with activeLoops := a2.activeLoops + 1 }

/-
Cancelling the live loop task from stop(): the task hits the CancelledError
branch of _run_loop (plain return), its finally block runs (a no-op here since
stop() set the stop flag first), and the task completes.
-/
def BaseAgent.cancelActiveLoop (a : BaseAgent) : BaseAgent :=
  (a.loopFinally).taskFinished

/-
BaseAgent.stop (called from outside the loop task, so the current-task
identity check passes): set the stop flag; if the task is live, cancel it and
await its completion; then set_state(STOPPED, "stop command") and
save_checkpoint().
-/
def BaseAgent.stop (a : BaseAgent) : BaseAgent :=
  let a1 := { a with shouldStop := true }
  let a2 := if a1.activeLoops ≠ 0 then a1.cancelActiveLoop else a1
  (a2.set_state AgentState.STOPPED).save_checkpoint

/- BaseAgent.pause: set_state(PAUSED, "pause command") - unconditional. -/
def BaseAgent.pause (a : BaseAgent) : BaseAgent :=
  a.set_state AgentState.PAUSED

/- BaseAgent.resume: only acts when the current state is PAUSED. -/
def BaseAgent.resume (a : BaseAgent) : BaseAgent :=
  if a.state = AgentState.PAUSED then a.set_state AgentState.RUNNING else a

/- External control surface: one command per call, applied sequentially. -/
inductive AgentCmd where
  | start
  | stop
  | pause
  | resume
deriving DecidableEq, Repr

def BaseAgent.step (a : BaseAgent) : AgentCmd → BaseAgent
  | AgentCmd.start => a.start
  | AgentCmd.stop => a.stop
  | AgentCmd.pause => a.pause
  | AgentCmd.resume => a.resume

def BaseAgent.runCmds (a : BaseAgent) (cs : List AgentCmd) : BaseAgent :=
  cs.foldl BaseAgent.step a

-- ============================================================
-- MessageBus (Bus/Bus.py, class MessageBus)
-- ============================================================

/-
A subscriber callback, abstracted by an identifier and by whether awaiting it
on the published message raises an exception.
-/
structure Subscriber where
  id : Nat
  raises : Bool
deriving DecidableEq, Repr

/-
self.subscribers is a dict type -> list of callbacks; modelled as an
association list in key-insertion order, each value list in registration
order (Python dict semantics).
-/
structure MessageBus where
  subscribers : List (String × List Subscriber)
deriving DecidableEq, Repr

def emptyBus : MessageBus := { subscribers := [] }

/-
MessageBus.subscribe: if msg_type not in dict, create the empty list; then
append the callback.
-/
def subscribeAux : List (String × List Subscriber) → String → Subscriber →
    List (String × List Subscriber)
  | [], t, cb => [(t, [cb])]
  | (k, v) :: rest, t, cb =>
    if k = t then (k, v ++ [cb]) :: rest else (k, v) :: subscribeAux rest t cb

def MessageBus.subscribe (bus : MessageBus) (msg_type : String) (cb : Subscriber) :
    MessageBus :=
  { subscribers := subscribeAux bus.subscribers msg_type cb }

/-
The subscriber list a publish call iterates:
self.subscribers.get(msg["type"], []) + self.subscribers.get("*", []).
-/
def MessageBus.subscribersFor (bus : MessageBus) (msgType : String) : List Subscriber :=
  (List.lookup msgType bus.subscribers).getD [] ++
    (List.lookup "*" bus.subscribers).getD []

/-
The delivery loop of MessageBus.publish: for cb in subscribers: await cb(msg).
There is no per-callback exception handling, so a raising callback aborts the
loop and the exception propagates to the publisher.  Returns the ids of the
callbacks that were invoked, and how publish itself finished.
-/
def deliverLoop : List Subscriber → List Nat × Except String Unit
  | [] => ([], Except.ok ())
  | s :: rest =>
    if s.raises then ([s.id], Except.error "subscriber exception")
    else
      match deliverLoop rest with
      | (ids, r) => (s.id :: ids, r)

def MessageBus.publish (bus : MessageBus) (msgType : String) :
    List Nat × Except String Unit :=
  deliverLoop (bus.subscribersFor msgType)

-- ============================================================
-- SectorLockManager (Miner/MinerBot.py, class SectorLockManager)
-- ============================================================

/-
self._locks is a dict sector -> asyncio.Lock; modelled as an association list
sector -> held?.  Entries are created lazily (under the global lock, which is
uncontended in sequential execution).
-/
structure SectorLockManager where
  locks : List ((Int × Int) × Bool)
deriving DecidableEq, Repr

/- Dict access self._locks.get(sector) / sector in self._locks. -/
def lockLookup (sector : Int × Int) : List ((Int × Int) × Bool) → Option Bool
  | [] => none
  | (k, v) :: rest => if k = sector then some v else lockLookup sector rest

def SectorLockManager.ensure (m : SectorLockManager) (sector : Int × Int) :
    SectorLockManager :=
  match lockLookup sector m.locks with
  | some _ => m
  | none => { locks := m.locks ++ [(sector, false)] }

def SectorLockManager.heldAt (m : SectorLockManager) (sector : Int × Int) : Bool :=
  (lockLookup sector m.locks).getD false

def setHeld (l : List ((Int × Int) × Bool)) (sector : Int × Int) (b : Bool) :
    List ((Int × Int) × Bool) :=
  l.map (fun kv => if kv.1 = sector then (kv.1, b) else kv)

/-
The wait on the lock inside acquire.  Result none models a call that never
returns (lock.acquire() awaited with no timeout while the lock is held and in
the absence of a release); some (.ok b) a normal return; some (.error e) a
raised exception (asyncio.wait_for raises TimeoutError when the timeout
elapses first).
-/
def waitForLockAcquire (held : Bool) (timeout : Option Nat) :
    Option (Except String Bool) :=
  match held, timeout with
  | false, _ => some (Except.ok true)
  | true, none => none
  | true, some _ => some (Except.error "TimeoutError")

/-
SectorLockManager.acquire: ensure the lock object exists; with no timeout,
await acquisition; with a timeout, wrap in asyncio.wait_for and catch
asyncio.TimeoutError, returning False.  First component of the result: none
if the call never returns, some r if it returns r (it never raises: the only
exception produced, TimeoutError, is caught).
-/
def SectorLockManager.acquire (m : SectorLockManager) (sector : Int × Int)
    (timeout : Option Nat) : Option (Except String Bool) × SectorLockManager :=
  let m1 := m.ensure sector
  match waitForLockAcquire (m1.heldAt sector) timeout with
  | some (Except.ok b) => (some (Except.ok b), { locks := setHeld m1.locks sector true })
  | some (Except.error _) => (some (Except.ok false), m1)
  | none => (none, m1)

-- ============================================================
-- ExplorerBot rectangle detection (Explorer/ExplorerBot.py)
-- ============================================================

/-
The inner while-loop of ExplorerBot._largest_rectangle_hist: pop while the
stack top is higher than the current bar, tracking the best area and its
column bounds; start becomes the index of each popped entry.  The stack holds
(index, height) with the top at the head.  Arguments after the stack:
max_area, left, right, start; returns the remaining stack and their new
values.
-/
def histInner (i h : Nat) :
    List (Nat × Nat) → Nat → Nat → Nat → Nat →
      List (Nat × Nat) × Nat × Nat × Nat × Nat
  | [], ma, l, r, start => ([], ma, l, r, start)
  | (idx, ht) :: rest, ma, l, r, start =>
    if h < ht then
      let area := ht * (i - idx)
      if ma < area then histInner i h rest area idx (i - 1) idx
      else histInner i h rest ma l r idx
    else ((idx, ht) :: rest, ma, l, r, start)

/-
The for-loop of _largest_rectangle_hist over the bars (the source appends a
sentinel bar of height 0 before iterating): i is the current index, then the
stack and the running max_area / left / right.
-/
def histFold : List Nat → Nat → List (Nat × Nat) → Nat → Nat → Nat →
    Nat × Nat × Nat
  | [], _, _, ma, l, r => (ma, l, r)
  | h :: hs, i, stack, ma, l, r =>
    match histInner i h stack ma l r i with
    | (stack1, ma1, l1, r1, start1) => histFold hs (i + 1) ((start1, h) :: stack1) ma1 l1 r1

/-
ExplorerBot._largest_rectangle_hist: returns (max_area, left, right), the
best area and the column index bounds of a best rectangle.
-/
def largest_rectangle_hist (heights : List Nat) : Nat × Nat × Nat :=
  histFold (heights ++ [0]) 0 [] 0 0 0

/-
The row step of ExplorerBot._largest_rectangle_in_matrix: update the running
per-column histogram (heights[x]+1 on a 1, reset to 0 otherwise), solve the
histogram problem, and on a positive area derive the rectangle
(area, (z1, x1), (z2, x2)) where height = area // width, z2 = current row and
z1 = z - height + 1 (computed in Int exactly as Python computes it), keeping
the strictly larger area.  State: (current row index, heights, best).
-/
def matrixStep (st : Nat × List Nat × Option (Nat × (Int × Nat) × (Nat × Nat)))
    (row : List Nat) : Nat × List Nat × Option (Nat × (Int × Nat) × (Nat × Nat)) :=
  match st with
  | (z, heights, best) =>
    let heights1 := List.zipWith (fun m h => if m = 1 then h + 1 else 0) row heights
    match largest_rectangle_hist heights1 with
    | (area, x1, x2) =>
      let best1 :=
        if 0 < area then
          let height := area / (x2 - x1 + 1)
          let z1 : Int := (z : Int) - (height : Int) + 1
          match best with
          | none => some (area, (z1, x1), (z, x2))
          | some b => if b.1 < area then some (area, (z1, x1), (z, x2)) else best
        else best
      (z + 1, heights1, best1)

/-
ExplorerBot._largest_rectangle_in_matrix over matrix[row = z][column = x]:
None on an empty matrix, otherwise fold the row step from a zero histogram of
width len(matrix[0]).
-/
def largest_rectangle_in_matrix (matrix : List (List Nat)) :
    Option (Nat × (Int × Nat) × (Nat × Nat)) :=
  match matrix with
  | [] => none
  | r0 :: _ =>
    (matrix.foldl matrixStep (0, List.replicate r0.length 0, none)).2.2

/-
sorted(set(l)) for the coordinate axes of a level: insert keeping the list
sorted and duplicate-free.
-/
def insertSortedDistinct (x : Int) : List Int → List Int
  | [] => [x]
  | y :: ys =>
    if x = y then y :: ys
    else if x < y then x :: y :: ys
    else y :: insertSortedDistinct x ys

def sortedSet (l : List Int) : List Int :=
  l.foldl (fun acc x => insertSortedDistinct x acc) []

/-
The levels dict of ExplorerBot.decide: levels.setdefault(h, []).append((x,z))
while iterating the height map in insertion order.  Keys appear in first-
occurrence order, each coordinate list in insertion order.
-/
def addToLevel (levels : List (Int × List (Int × Int))) (h : Int) (c : Int × Int) :
    List (Int × List (Int × Int)) :=
  match levels with
  | [] => [(h, [c])]
  | (k, v) :: rest =>
    if k = h then (k, v ++ [c]) :: rest else (k, v) :: addToLevel rest h c

def groupLevels (height_map : List ((Int × Int) × Int)) :
    List (Int × List (Int × Int)) :=
  height_map.foldl (fun acc p => addToLevel acc p.2 p.1) []

/-
The per-level body of ExplorerBot.decide: xs and zs are the sorted distinct
axis values, the grid has a row per x and a column per z with a 1 exactly at
the cells whose (x, z) occurs in the level (the imperative fill
grid[x_index[x]][z_index[z]] = 1 over a zero grid produces exactly this), the
matrix is its transpose (rows = z, columns = x, as list(zip(*grid))), and the
returned matrix indices are converted back through xs / zs (z1 is an Int in
the source computation; it is nonnegative whenever produced, as height is at
most z + 1).  Best kept by strictly larger area.
-/
def levelBest (best : Option (Nat × Int × Int × Int × Int × Int)) (h : Int)
    (coords : List (Int × Int)) : Option (Nat × Int × Int × Int × Int × Int) :=
  let xs := sortedSet (coords.map Prod.fst)
  let zs := sortedSet (coords.map Prod.snd)
  let grid := xs.map (fun x => zs.map (fun z => if (x, z) ∈ coords then (1 : Nat) else 0))
  let matrix := grid.transpose
  match largest_rectangle_in_matrix matrix with
  | none => best
  | some (area, (z1i, x1i), (z2i, x2i)) =>
    let x1 := xs.getD x1i 0
    let x2 := xs.getD x2i 0
    let z1 := zs.getD z1i.toNat 0
    let z2 := zs.getD z2i 0
    match best with
    | none => some (area, x1, z1, x2, z2, h)
    | some b => if b.1 < area then some (area, x1, z1, x2, z2, h) else best

/- The best_rectangle payload built at the end of ExplorerBot.decide. -/
structure BestRect where
  x1 : Int
  z1 : Int
  x2 : Int
  z2 : Int
  width : Nat
  height : Nat
  area : Nat
  y : Int
deriving DecidableEq, Repr

/-
ExplorerBot.decide on a percept height map (dict (x,z) -> elevation, as an
association list in insertion order): group by elevation, find each level's
largest rectangle, track the best across levels, and return the
best_rectangle payload (width = abs(x2-x1)+1, height = abs(z2-z1)+1) or none.
-/
def ExplorerBot.decide (height_map : List ((Int × Int) × Int)) : Option BestRect :=
  let levels := groupLevels height_map
  match levels.foldl (fun b hc => levelBest b hc.1 hc.2) none with
  | none => none
  | some (area, x1, z1, x2, z2, h) =>
    some { x1 := x1, z1 := z1, x2 := x2, z2 := z2,
           width := (x2 - x1).natAbs + 1, height := (z2 - z1).natAbs + 1,
           area := area, y := h }

/-
No two 4-neighbour-adjacent sampled cells share an elevation (the hypothesis
of the spec property about the detector).
-/
def noAdjacentShared (height_map : List ((Int × Int) × Int)) : Bool :=
  height_map.all (fun p => height_map.all (fun q =>
    if (p.1.1 - q.1.1).natAbs + (p.1.2 - q.1.2).natAbs = 1
    then decide (p.2 ≠ q.2) else true))

-- ============================================================
-- ExplorerBot.act and ExplorerBot.idle (Explorer/ExplorerBot.py)
-- ============================================================

/-
The attribute names BaseAgent defines (methods and properties of the class in
BaseAgent.py).  There is no idle entry.
-/
def BaseAgent.methodNames : List String :=
  ["state", "set_state", "start", "stop", "pause", "resume", "update",
   "_run_loop", "perceive", "decide", "act", "save_checkpoint", "build_message"]

/-
ExplorerBot.idle does: await super().idle().  Attribute lookup on the parent
class succeeds only if BaseAgent (or object) defines idle; otherwise the call
raises AttributeError.
-/
def ExplorerBot.idle : Except String Unit :=
  if BaseAgent.methodNames.contains "idle" then Except.ok ()
  else Except.error "AttributeError"

/- The ExplorerBot fields that act reads and writes. -/
structure ExplorerBot where
  center : Int × Int
  range : Nat
  queued_request : Option (Int × Int × Nat)
deriving DecidableEq, Repr

/-
ExplorerBot.act: log, publish map.v1 (modelled as succeeding), then either
switch to the queued request or go idle via self.idle().  Errors propagate to
the PDA loop.
-/
def ExplorerBot.act (e : ExplorerBot) (decision : Option BestRect) :
    Except String ExplorerBot :=
  match e.queued_request with
  | some (x, z, r) =>
    Except.ok { e with queued_request := none, center := (x, z), range := r }
  | none =>
    match ExplorerBot.idle with
    | Except.ok _ => Except.ok e
    | Except.error err => Except.error err

-- ============================================================
-- BuilderBot (Builder/BuilderBot.py)
-- ============================================================

/- A loaded schematic template: size and (x, y, z, material) blocks. -/
structure Template where
  width : Nat
  height : Nat
  depth : Nat
  blocks : List (Nat × Nat × Nat × String)
deriving DecidableEq, Repr

/- A plan entry dict {"x":…, "y":…, "z":…, "material":…}. -/
structure BlockPlacement where
  x : Nat
  y : Nat
  z : Nat
  material : String
deriving DecidableEq, Repr

/- A plan layer dict {"y":…, "blocks":…}. -/
structure Layer where
  y : Nat
  blocks : List BlockPlacement
deriving DecidableEq, Repr

/-
BuilderBot._make_build_plan: one (initially empty) layer per y in
range(height); every non-air block is appended to the layer of its y (block
data from a parsed schematic has y < height); finally each layer is paired
with its index.  The created plan is stored into self._build_plan.
-/
def make_build_plan (t : Template) : List Layer :=
  let empty : List (List BlockPlacement) := List.replicate t.height []
  let filled := t.blocks.foldl
    (fun plan blk =>
      match blk with
      | (x, y, z, m) =>
        if m = "minecraft:air" then plan
        else plan.set y (plan.getD y [] ++ [{ x := x, y := y, z := z, material := m }]))
    empty
  filled.enum.map (fun p => { y := p.1, blocks := p.2 })

/-
BuilderBot._materials_ready: all(inv.get(k, 0) >= v for k, v in bom.items()).
-/
def materials_ready (bom inv : List (String × Nat)) : Bool :=
  bom.all (fun kv => decide (kv.2 ≤ (List.lookup kv.1 inv).getD 0))

/- The BuilderBot fields read and written by decide. -/
structure BuilderBot where
  state : AgentState
  template : Template
  build_plan : Option (List Layer)
  build_progress : Nat
deriving DecidableEq, Repr

/- The percept assembled by BuilderBot.perceive. -/
structure BuilderPercept where
  map : Option BestRect
  inventory : List (String × Nat)
  bom : Option (List (String × Nat))
  build_progress : Nat
deriving DecidableEq, Repr

inductive BuilderAction where
  | wait_for_map
  | compute_bom
  | wait_for_materials
  | build_layer
  | finish_building
deriving DecidableEq, Repr

/-
BuilderBot.decide.  In the source the materials guard
(if not self._materials_ready(p["bom"], p["inventory"]):) is commented out,
and the two statements of its former body (set_state WAITING and
return {"action": "wait_for_materials"}) are left indented under the
preceding if p["bom"] is None: block, directly after its return - so they are
unreachable and are not part of the embedded control flow.  With a map and a
BOM present, decide goes straight to the plan/progress logic regardless of
the inventory.
-/
def BuilderBot.decide (b : BuilderBot) (p : BuilderPercept) :
    BuilderBot × BuilderAction :=
  if p.map.isNone then
    ({ b with state := AgentState.WAITING }, BuilderAction.wait_for_map)
  else if p.bom.isNone then (b, BuilderAction.compute_bom)
  else
    let b1 :=
      if b.build_plan.isNone then
        { b with build_plan := some (make_build_plan b.template) }
      else b
    if (b1.build_plan.getD []).length ≤ b1.build_progress then
      (b1, BuilderAction.finish_building)
    else ({ b1 with state := AgentState.RUNNING }, BuilderAction.build_layer)

-- ============================================================
-- Theorems: BaseAgent lifecycle (claims C1, C6, C7, C8)
-- ============================================================

theorem loopIter_replicate_ok_raises (n : Nat) : ∀ (a : BaseAgent),
    a.shouldStop = false → a.state = AgentState.RUNNING →
    a.loopIter (List.replicate n CycleOutcome.ok ++ [CycleOutcome.raises]) =
      (a, LoopExit.exn) := by
  induction n with
  | zero =>
    intro a h1 h2
    simp [BaseAgent.loopIter, h1, h2]
  | succ k ih =>
    intro a h1 h2
    simp only [List.replicate_succ, List.cons_append, BaseAgent.loopIter, h1, h2]
    simpa [h1, h2] using ih a h1 h2

/--
Claim C1 counterexample: start an agent and let its first cycle raise an
unhandled exception with no stop requested; after the loop terminates the
final observable state is STOPPED, not ERROR (the finally block of
BaseAgent._run_loop overwrites the ERROR state set by the except branch).
-/
theorem run_loop_error_final_state_counterexample :
    (BaseAgent.start initAgent).shouldStop = false ∧
    (BaseAgent.start initAgent).state = AgentState.RUNNING ∧
    (BaseAgent.run_loop (BaseAgent.start initAgent) [CycleOutcome.raises]).state =
      AgentState.STOPPED ∧
    AgentState.STOPPED ≠ AgentState.ERROR := by
  decide

/--
Claim C1 (amended): for every agent, if an unhandled exception is raised
inside a perceive/decide/act cycle while no stop has been requested, the
agent transitions to Error and a checkpoint is attempted, the loop terminates
without auto-restart - but the finally block then transitions it to Stopped
(attempting a second checkpoint), so the final observable state is Stopped,
with the Error transition visible in the state history.
-/
theorem run_loop_unhandled_failure_ends_stopped (a : BaseAgent) (n : Nat)
    (h1 : a.shouldStop = false) (h2 : a.state = AgentState.RUNNING) :
    (a.run_loop (List.replicate n CycleOutcome.ok ++ [CycleOutcome.raises])).state =
        AgentState.STOPPED ∧
    AgentState.ERROR ∈
        (a.run_loop (List.replicate n CycleOutcome.ok ++ [CycleOutcome.raises])).history ∧
    (a.run_loop (List.replicate n CycleOutcome.ok ++ [CycleOutcome.raises])).checkpoints =
        a.checkpoints + 2 ∧
    (a.run_loop (List.replicate n CycleOutcome.ok ++ [CycleOutcome.raises])).loopTerminations =
        a.loopTerminations + 1 ∧
    (a.run_loop (List.replicate n CycleOutcome.ok ++ [CycleOutcome.raises])).activeLoops = 0 := by
  have h := loopIter_replicate_ok_raises n a h1 h2
  unfold BaseAgent.run_loop
  rw [h]
  simp [BaseAgent.loopFinally, BaseAgent.set_state, BaseAgent.save_checkpoint,
    BaseAgent.taskFinished, h1]

/-- Claim C1 witness: the amended theorem applied to a concrete started agent. -/
theorem run_loop_unhandled_failure_ends_stopped_witness :
    (BaseAgent.start initAgent).shouldStop = false ∧
    (BaseAgent.start initAgent).state = AgentState.RUNNING ∧
    ((BaseAgent.run_loop (BaseAgent.start initAgent)
        (List.replicate 0 CycleOutcome.ok ++ [CycleOutcome.raises])).state =
          AgentState.STOPPED ∧
      AgentState.ERROR ∈
        (BaseAgent.run_loop (BaseAgent.start initAgent)
          (List.replicate 0 CycleOutcome.ok ++ [CycleOutcome.raises])).history ∧
      (BaseAgent.run_loop (BaseAgent.start initAgent)
          (List.replicate 0 CycleOutcome.ok ++ [CycleOutcome.raises])).checkpoints =
        (BaseAgent.start initAgent).checkpoints + 2 ∧
      (BaseAgent.run_loop (BaseAgent.start initAgent)
          (List.replicate 0 CycleOutcome.ok ++ [CycleOutcome.raises])).loopTerminations =
        (BaseAgent.start initAgent).loopTerminations + 1 ∧
      (BaseAgent.run_loop (BaseAgent.start initAgent)
          (List.replicate 0 CycleOutcome.ok ++ [CycleOutcome.raises])).activeLoops = 0) :=
  ⟨by decide, by decide,
    run_loop_unhandled_failure_ends_stopped (BaseAgent.start initAgent) 0
      (by decide) (by decide)⟩

theorem stop_with_no_active_loop (a : BaseAgent) (h : a.activeLoops = 0) :
    (a.stop).activeLoops = 0 ∧ (a.stop).checkpoints = a.checkpoints + 1 ∧
    (a.stop).loopTerminations = a.loopTerminations ∧
    (a.stop).state = AgentState.STOPPED := by
  simp [BaseAgent.stop, h, BaseAgent.set_state, BaseAgent.save_checkpoint]

theorem iterate_stop_no_active (k : Nat) : ∀ (a : BaseAgent), a.activeLoops = 0 →
    (Nat.iterate BaseAgent.stop k a).activeLoops = 0 ∧
    (Nat.iterate BaseAgent.stop k a).checkpoints = a.checkpoints + k ∧
    (Nat.iterate BaseAgent.stop k a).loopTerminations = a.loopTerminations := by
  induction k with
  | zero => intro a h; simpa using h
  | succ m ih =>
    intro a h
    rw [Function.iterate_succ_apply]
    obtain ⟨h1, h2, h3, _⟩ := stop_with_no_active_loop a h
    obtain ⟨g1, g2, g3⟩ := ih (a.stop) h1
    refine ⟨g1, ?_, ?_⟩
    · rw [g2, h2]; omega
    · rw [g3, h3]

/--
Claim C6 counterexample: after a single start(), two stop() calls terminate
the loop exactly once but invoke the checkpoint hook twice, not exactly once.
-/
theorem stop_twice_checkpoints_counterexample :
    (Nat.iterate BaseAgent.stop 2 (BaseAgent.start initAgent)).loopTerminations = 1 ∧
    (Nat.iterate BaseAgent.stop 2 (BaseAgent.start initAgent)).checkpoints = 2 ∧
    (2 : Nat) ≠ 1 := by
  decide

/--
Claim C6 (amended): after a single start(), any number n ≥ 1 of sequential
stop() calls terminates the loop exactly once, but every stop() call invokes
the checkpoint hook once, so n calls produce n checkpoint invocations
(exactly one only when stop() is called once); no loop remains active.
-/
theorem stops_after_start_terminate_once (n : Nat) (h : 1 ≤ n) :
    (Nat.iterate BaseAgent.stop n (BaseAgent.start initAgent)).loopTerminations = 1 ∧
    (Nat.iterate BaseAgent.stop n (BaseAgent.start initAgent)).checkpoints = n ∧
    (Nat.iterate BaseAgent.stop n (BaseAgent.start initAgent)).activeLoops = 0 := by
  obtain ⟨k, rfl⟩ : ∃ k, n = k + 1 := ⟨n - 1, (Nat.succ_pred_eq_of_pos h).symm⟩
  rw [Function.iterate_succ_apply]
  have hfields : ((BaseAgent.start initAgent).stop).activeLoops = 0 ∧
      ((BaseAgent.start initAgent).stop).checkpoints = 1 ∧
      ((BaseAgent.start initAgent).stop).loopTerminations = 1 := by decide
  obtain ⟨g1, g2, g3⟩ := iterate_stop_no_active k _ hfields.1
  refine ⟨?_, ?_, g1⟩
  · rw [g3, hfields.2.2]
  · rw [g2, hfields.2.1]; omega

/-- Claim C6 witness: the amended theorem applied at n = 2 stop() calls. -/
theorem stops_after_start_terminate_once_witness :
    (1 : Nat) ≤ 2 ∧
    ((Nat.iterate BaseAgent.stop 2 (BaseAgent.start initAgent)).loopTerminations = 1 ∧
      (Nat.iterate BaseAgent.stop 2 (BaseAgent.start initAgent)).checkpoints = 2 ∧
      (Nat.iterate BaseAgent.stop 2 (BaseAgent.start initAgent)).activeLoops = 0) :=
  ⟨by decide, stops_after_start_terminate_once 2 (by decide)⟩

/--
Claim C7 counterexample: pause() on a freshly created agent (state IDLE, not
RUNNING) still moves the state to PAUSED - pause() is unconditional in
BaseAgent, so Paused is not entered only from Running.
-/
theorem pause_from_idle_counterexample :
    initAgent.state ≠ AgentState.RUNNING ∧
    (initAgent.pause).state = AgentState.PAUSED := by
  decide

/--
Claim C7 (amended): under any sequence of start/stop/pause/resume calls the
state is always one of the six defined values; resume() moves the state to
Running exactly when it was Paused and otherwise leaves it unchanged; but
pause() sets Paused unconditionally, from any state (not only from Running);
stop() always ends in Stopped and start() moves to Running exactly when no
loop task is active.
-/
theorem agent_state_machine_edges :
    (∀ (a : BaseAgent) (cs : List AgentCmd), (a.runCmds cs).state ∈
      [AgentState.IDLE, AgentState.RUNNING, AgentState.PAUSED, AgentState.WAITING,
        AgentState.STOPPED, AgentState.ERROR]) ∧
    (∀ a : BaseAgent, (a.pause).state = AgentState.PAUSED) ∧
    (∀ a : BaseAgent, (a.resume).state =
      if a.state = AgentState.PAUSED then AgentState.RUNNING else a.state) ∧
    (∀ a : BaseAgent, (a.stop).state = AgentState.STOPPED) ∧
    (∀ a : BaseAgent, (a.start).state =
      if a.activeLoops = 0 then AgentState.RUNNING else a.state) := by
  refine ⟨?_, ?_, ?_, ?_, ?_⟩
  · intro a cs
    cases (BaseAgent.runCmds a cs).state <;> simp
  · intro a
    rfl
  · intro a
    by_cases h : a.state = AgentState.PAUSED <;>
      simp [BaseAgent.resume, h, BaseAgent.set_state]
  · intro a
    rfl
  · intro a
    by_cases h : a.activeLoops = 0 <;> simp [BaseAgent.start, h, BaseAgent.set_state]

theorem step_activeLoops_le (a : BaseAgent) (c : AgentCmd) (h : a.activeLoops ≤ 1) :
    (a.step c).activeLoops ≤ 1 := by
  cases c <;>
    simp only [BaseAgent.step, BaseAgent.start, BaseAgent.stop, BaseAgent.pause,
      BaseAgent.resume, BaseAgent.cancelActiveLoop, BaseAgent.loopFinally,
      BaseAgent.taskFinished, BaseAgent.set_state, BaseAgent.save_checkpoint] <;>
    (try split_ifs) <;> simp_all

theorem runCmds_activeLoops_le (cs : List AgentCmd) : ∀ (a : BaseAgent),
    a.activeLoops ≤ 1 → (a.runCmds cs).activeLoops ≤ 1 := by
  induction cs with
  | nil => intro a h; simpa [BaseAgent.runCmds] using h
  | cons c rest ih =>
    intro a h
    have hstep : BaseAgent.runCmds a (c :: rest) = BaseAgent.runCmds (a.step c) rest := rfl
    rw [hstep]
    exact ih _ (step_activeLoops_le a c h)

/--
Claim C8: start() is idempotent - with a live loop task it returns without
changing anything, otherwise it clears the stop flag, transitions to Running
and schedules exactly one loop; along any command sequence from a fresh agent
at most one PDA loop is ever active.
-/
theorem start_idempotent_single_loop :
    (∀ a : BaseAgent, a.activeLoops ≠ 0 → a.start = a) ∧
    (∀ a : BaseAgent, a.activeLoops = 0 →
      (a.start).shouldStop = false ∧ (a.start).state = AgentState.RUNNING ∧
        (a.start).activeLoops = 1) ∧
    (∀ cs : List AgentCmd, (initAgent.runCmds cs).activeLoops ≤ 1) := by
  refine ⟨?_, ?_, ?_⟩
  · intro a h
    simp [BaseAgent.start, h]
  · intro a h
    simp [BaseAgent.start, h, BaseAgent.set_state]
  · intro cs
    exact runCmds_activeLoops_le cs initAgent (by decide)

/-- Claim C8 witness: idempotence and the single-loop bound at concrete inputs. -/
theorem start_idempotent_single_loop_witness :
    ((BaseAgent.start initAgent).activeLoops ≠ 0 ∧
      (BaseAgent.start (BaseAgent.start initAgent)) = BaseAgent.start initAgent) ∧
    (initAgent.activeLoops = 0 ∧
      ((initAgent.start).shouldStop = false ∧ (initAgent.start).state = AgentState.RUNNING ∧
        (initAgent.start).activeLoops = 1)) ∧
    (initAgent.runCmds [AgentCmd.start, AgentCmd.start]).activeLoops ≤ 1 :=
  ⟨⟨by decide, start_idempotent_single_loop.1 (BaseAgent.start initAgent) (by decide)⟩,
    ⟨by decide, start_idempotent_single_loop.2.1 initAgent (by decide)⟩,
    start_idempotent_single_loop.2.2 [AgentCmd.start, AgentCmd.start]⟩

-- ============================================================
-- Theorems: MessageBus (claim C3)
-- ============================================================

/- Two subscribers on topic t; the first raises, the second does not. -/
def busWithRaiser : MessageBus :=
  (emptyBus.subscribe "t" { id := 1, raises := true }).subscribe "t"
    { id := 2, raises := false }

/--
Claim C3 counterexample: with a raising subscriber registered before a
healthy one on the same topic, publish invokes only the first callback; the
subscriber registered after it never receives the message and the exception
propagates out of publish.
-/
theorem publish_raising_subscriber_counterexample :
    (busWithRaiser.publish "t").1 = [1] ∧
    ¬ (2 ∈ (busWithRaiser.publish "t").1) ∧
    (busWithRaiser.publish "t").2 = Except.error "subscriber exception" :=
  ⟨by decide, by decide, rfl⟩

theorem deliverLoop_stops_at_raiser (pre : List Subscriber) :
    ∀ (s : Subscriber) (post : List Subscriber), s.raises = true →
    (∀ u ∈ pre, u.raises = false) →
    deliverLoop (pre ++ s :: post) =
      (pre.map Subscriber.id ++ [s.id], Except.error "subscriber exception") := by
  induction pre with
  | nil =>
    intro s post hs _
    simp [deliverLoop, hs]
  | cons u rest ih =>
    intro s post hs hpre
    have hu : u.raises = false := hpre u (by simp)
    have hrest : ∀ v ∈ rest, v.raises = false := fun v hv => hpre v (by simp [hv])
    simp only [List.cons_append, deliverLoop, hu, Bool.false_eq_true, if_false,
      List.append_eq]
    rw [ih s post hs hrest]
    simp

/--
Claim C3 (amended): publish delivers in subscriber order only up to and
including the first raising subscriber: every subscriber registered before it
is invoked, the raiser is invoked, its exception aborts the loop so no later
subscriber receives the message, and the exception propagates to the
publisher.
-/
theorem publish_stops_at_first_raising_subscriber (bus : MessageBus) (t : String)
    (pre : List Subscriber) (s : Subscriber) (post : List Subscriber)
    (hsubs : bus.subscribersFor t = pre ++ s :: post)
    (hs : s.raises = true) (hpre : ∀ u ∈ pre, u.raises = false) :
    bus.publish t =
      (pre.map Subscriber.id ++ [s.id], Except.error "subscriber exception") := by
  unfold MessageBus.publish
  rw [hsubs]
  exact deliverLoop_stops_at_raiser pre s post hs hpre

/-- Claim C3 witness: the amended theorem applied to the concrete two-subscriber bus. -/
theorem publish_stops_at_first_raising_subscriber_witness :
    busWithRaiser.subscribersFor "t" =
      [] ++ { id := 1, raises := true } :: [{ id := 2, raises := false }] ∧
    busWithRaiser.publish "t" =
      (List.map Subscriber.id [] ++ [1], Except.error "subscriber exception") :=
  ⟨by decide,
    publish_stops_at_first_raising_subscriber busWithRaiser "t" []
      { id := 1, raises := true } [{ id := 2, raises := false }]
      (by decide) (by decide) (by simp)⟩

-- ============================================================
-- Theorems: SectorLockManager (claim C9)
-- ============================================================

theorem lockLookup_append_self (sector : Int × Int)
    (l : List ((Int × Int) × Bool)) (h : lockLookup sector l = none) :
    lockLookup sector (l ++ [(sector, false)]) = some false := by
  induction l with
  | nil => simp [lockLookup]
  | cons kv rest ih =>
    obtain ⟨k, v⟩ := kv
    by_cases hk : k = sector
    · simp [lockLookup, hk] at h
    · simp only [List.cons_append, lockLookup, hk, if_false] at h ⊢
      exact ih h

/--
Claim C9: SectorLockManager.acquire with a finite timeout on an already-held
sector lock returns False - the TimeoutError raised inside is caught, the
call neither raises nor hangs; with the sector lock free it returns True.
-/
theorem acquire_timeout_returns_false :
    (∀ (m : SectorLockManager) (s : Int × Int) (T : Nat), m.heldAt s = true →
      (m.acquire s (some T)).1 = some (Except.ok false)) ∧
    (∀ (m : SectorLockManager) (s : Int × Int) (T : Nat), m.heldAt s = false →
      (m.acquire s (some T)).1 = some (Except.ok true)) := by
  constructor
  · intro m s T h
    have hl : lockLookup s m.locks = some true := by
      unfold SectorLockManager.heldAt at h
      cases hx : lockLookup s m.locks with
      | none => rw [hx] at h; simp at h
      | some b => rw [hx] at h; simp at h; rw [h]
    unfold SectorLockManager.acquire SectorLockManager.ensure
    rw [hl]
    simp [SectorLockManager.heldAt, hl, waitForLockAcquire]
  · intro m s T h
    cases hx : lockLookup s m.locks with
    | some b =>
      have hb : b = false := by
        unfold SectorLockManager.heldAt at h
        rw [hx] at h
        simpa using h
      unfold SectorLockManager.acquire SectorLockManager.ensure
      rw [hx]
      simp [SectorLockManager.heldAt, hx, hb, waitForLockAcquire]
    | none =>
      have h2 : lockLookup s (m.locks ++ [(s, false)]) = some false :=
        lockLookup_append_self s m.locks hx
      unfold SectorLockManager.acquire SectorLockManager.ensure
      rw [hx]
      simp [SectorLockManager.heldAt, h2, waitForLockAcquire]

/-- Claim C9 witness: acquire on a held and on a free sector lock, timeout 1. -/
theorem acquire_timeout_returns_false_witness :
    (SectorLockManager.heldAt { locks := [(((0 : Int), (0 : Int)), true)] } (0, 0) = true ∧
      ((SectorLockManager.acquire { locks := [(((0 : Int), (0 : Int)), true)] }
        (0, 0) (some 1)).1 = some (Except.ok false))) ∧
    (SectorLockManager.heldAt { locks := [] } (0, 0) = false ∧
      ((SectorLockManager.acquire { locks := [] } (0, 0) (some 1)).1 =
        some (Except.ok true))) :=
  ⟨⟨by decide,
      acquire_timeout_returns_false.1 { locks := [(((0 : Int), (0 : Int)), true)] }
        (0, 0) 1 (by decide)⟩,
    ⟨by decide,
      acquire_timeout_returns_false.2 { locks := [] } (0, 0) 1 (by decide)⟩⟩

-- ============================================================
-- Theorems: ExplorerBot rectangle detection (claims C4, C5)
-- ============================================================

/--
Claim C5: on the elevation map with (0,0),(1,0),(0,1),(1,1) at elevation 5
and (2,0) at elevation 3, ExplorerBot.decide returns the rectangle with
corners (0,0)-(1,1), area 4, at elevation 5.
-/
theorem explorer_decide_concrete_map :
    ExplorerBot.decide [((0, 0), 5), ((1, 0), 5), ((0, 1), 5), ((1, 1), 5), ((2, 0), 3)] =
      some { x1 := 0, z1 := 0, x2 := 1, z2 := 1, width := 2, height := 2,
             area := 4, y := 5 } := by
  decide

/-
An elevation map in which no two 4-adjacent cells share an elevation:
(0,0) and (2,0) are both at elevation 5 but are two apart, separated by (1,0)
at elevation 3.
-/
def nonAdjacentMap : List ((Int × Int) × Int) :=
  [((0, 0), 5), ((1, 0), 3), ((2, 0), 5)]

/--
Claim C4: on the map nonAdjacentMap no two adjacent cells share an elevation,
yet ExplorerBot.decide reports a best rectangle of area 2 (neither area 1 nor
none): the per-level grid is indexed by the sorted distinct coordinate values,
so the gap at (1,0) is compressed away and the two non-adjacent elevation-5
cells are fused into a rectangle spanning x 0..2 - whose interior cell (1,0)
has elevation 3.
-/
theorem explorer_decide_nonadjacent_area_two :
    noAdjacentShared nonAdjacentMap = true ∧
    ExplorerBot.decide nonAdjacentMap =
      some { x1 := 0, z1 := 0, x2 := 2, z2 := 0, width := 3, height := 1,
             area := 2, y := 5 } ∧
    (ExplorerBot.decide nonAdjacentMap).map BestRect.area ≠ some 1 ∧
    ExplorerBot.decide nonAdjacentMap ≠ none := by
  decide

-- ============================================================
-- Theorems: BuilderBot.decide (claim C2)
-- ============================================================

/- A 1x1x1 template with a single stone block (a one-layer plan). -/
def stoneTemplate : Template :=
  { width := 1, height := 1, depth := 1, blocks := [(0, 0, 0, "minecraft:stone")] }

def builderAtStart : BuilderBot :=
  { state := AgentState.WAITING, template := stoneTemplate,
    build_plan := none, build_progress := 0 }

def acceptedRect : BestRect :=
  { x1 := 0, z1 := 0, x2 := 1, z2 := 1, width := 2, height := 2, area := 4, y := 5 }

def perceptShortStone : BuilderPercept :=
  { map := some acceptedRect, inventory := [("stone", 3)],
    bom := some [("stone", 5)], build_progress := 0 }

/--
Claim C2: with bom stone:5 and inventory stone:3 the materials are not ready,
yet BuilderBot.decide returns build_layer, not wait_for_materials - the
materials guard is commented out in the source and its former body is
unreachable dead code, so decide never returns wait_for_materials.  The
progress-versus-plan-length part of the claim does hold: with the materials
available, decide returns build_layer while progress is below the plan length
and finish_building once progress reaches it.
-/
theorem builder_decide_skips_materials_wait :
    materials_ready [("stone", 5)] [("stone", 3)] = false ∧
    (builderAtStart.decide perceptShortStone).2 = BuilderAction.build_layer ∧
    BuilderAction.build_layer ≠ BuilderAction.wait_for_materials ∧
    (builderAtStart.decide
      { perceptShortStone with inventory := [("stone", 5)] }).2 =
        BuilderAction.build_layer ∧
    ({ builderAtStart with build_progress := 1 }.decide
      { perceptShortStone with inventory := [("stone", 5)], build_progress := 1 }).2 =
        BuilderAction.finish_building := by
  decide

-- ============================================================
-- Theorems: ExplorerBot.act / idle (claim C10)
-- ============================================================

/--
Claim C10: whenever ExplorerBot.act runs with no queued request pending, the
self.idle() call delegates to super().idle(); BaseAgent defines no idle
attribute, so the call raises AttributeError, and a cycle raising an
unhandled exception is routed through the PDA loop's unhandled-failure path
(the ERROR transition appears in the state history) instead of going Idle.
-/
theorem explorer_act_without_queue_raises (e : ExplorerBot) (d : Option BestRect)
    (h : e.queued_request = none) :
    ExplorerBot.act e d = Except.error "AttributeError" ∧
    BaseAgent.methodNames.contains "idle" = false ∧
    AgentState.ERROR ∈
      (BaseAgent.run_loop (BaseAgent.start initAgent) [CycleOutcome.raises]).history := by
  refine ⟨?_, by decide, by decide⟩
  unfold ExplorerBot.act
  rw [h]
  rfl

/-- Claim C10 witness: act on a concrete ExplorerBot with no queued request. -/
theorem explorer_act_without_queue_raises_witness :
    ({ center := ((0 : Int), (0 : Int)), range := 30, queued_request := none } :
        ExplorerBot).queued_request = none ∧
    (ExplorerBot.act
        { center := ((0 : Int), (0 : Int)), range := 30, queued_request := none } none =
          Except.error "AttributeError" ∧
      BaseAgent.methodNames.contains "idle" = false ∧
      AgentState.ERROR ∈
        (BaseAgent.run_loop (BaseAgent.start initAgent) [CycleOutcome.raises]).history) :=
  ⟨rfl,
    explorer_act_without_queue_raises
      { center := ((0 : Int), (0 : Int)), range := 30, queued_request := none } none rfl⟩
